import Mathlib

/-!
Shallow embedding of `src/espflash/src/error.rs` (espflash's error
taxonomy and its conversion functions), together with theorems checking
the natural-language specification against it.

Machine integers are modelled as `Nat` with explicit range hypotheses
where the width matters; Rust `Result` is `Except`; a Rust function that
can panic is modelled as returning `Option` (with `none` for the panic).
Types from external crates (`csv`, `serial-core`, `slip-codec`,
`binread`, `std::io`, `miette`) are modelled from those crates' public
documented shapes, since only their variant structure matters here.
-/

namespace Espflash

/-- Models `std::io::ErrorKind`: a representative closed set of the I/O
failure classes, with the two kinds the code inspects (`TimedOut`,
`NotFound`) plus several others standing for "any other kind". -/
inductive IoErrorKind where
  | NotFound
  | PermissionDenied
  | ConnectionRefused
  | ConnectionReset
  | BrokenPipe
  | WouldBlock
  | InvalidInput
  | InvalidData
  | TimedOut
  | WriteZero
  | Interrupted
  | UnexpectedEof
  | OtherKind
  deriving DecidableEq, Repr

/-- Models `std::io::Error`: a kind plus a display message. -/
structure IoError where
  kind : IoErrorKind
  msg : String
  deriving DecidableEq, Repr

/-- Models `serial::core::ErrorKind` from the serial-core crate:
`NoDevice`, `InvalidInput`, `Unknown`, `Io(io::ErrorKind)`. -/
inductive SerialErrorKind where
  | NoDevice
  | InvalidInput
  | Unknown
  | Io (kind : IoErrorKind)
  deriving DecidableEq, Repr

/-- Models `serial::core::Error`: a kind plus a description string. -/
structure SerialError where
  kind : SerialErrorKind
  msg : String
  deriving DecidableEq, Repr

/-- Models serial-core's `impl From<io::Error> for Error` (keeps the
I/O kind and the message). -/
def serialOfIo (e : IoError) : SerialError :=
  { kind := SerialErrorKind.Io e.kind, msg := e.msg }

/-- Models `slip_codec::Error`:
`FramingError | OversizedPacket | ReadError(io::Error) | EndOfStream`. -/
inductive SlipError where
  | FramingError
  | OversizedPacket
  | ReadError (io : IoError)
  | EndOfStream
  deriving DecidableEq, Repr

/-- Models `binread::Error`'s variant shapes: `Io` carries an I/O error;
the other variants (`BadMagic`, `AssertFail`, `Custom`, `NoVariantMatch`,
`EnumErrors`) carry positions/messages irrelevant to the conversion. -/
inductive BinreadError where
  | BadMagic (pos : Nat)
  | AssertFail (pos : Nat) (msg : String)
  | Io (e : IoError)
  | Custom (pos : Nat)
  | NoVariantMatch (pos : Nat)
  | EnumErrors (pos : Nat)
  deriving DecidableEq, Repr

/-- Models `crate::flasher::Command` (declared in `flasher.rs`, outside
the given source file). Per the spec, a command carries a human-readable
name used only for diagnostics; the conversions here treat it as an
opaque value, so its exact shape is immaterial. -/
structure Command where
  name : String
  deriving DecidableEq, Repr

/-- Models `TimedOutCommand { command: Option<Command> }`. -/
structure TimedOutCommand where
  command : Option Command
  deriving DecidableEq, Repr

/-- Models `impl From<Command> for TimedOutCommand`. -/
def TimedOutCommand.ofCommand (c : Command) : TimedOutCommand :=
  { command := some c }

/-- Models `impl Default for TimedOutCommand` (`command: None`). -/
def TimedOutCommand.default : TimedOutCommand :=
  { command := none }

/-- Models the `ConnectionError` enum of `error.rs`. -/
inductive ConnectionError where
  | Serial (err : SerialError)
  | ConnectionFailed
  | DeviceNotFound
  | Timeout (t : TimedOutCommand)
  | FramingError
  | OverSizedPacket
  deriving DecidableEq, Repr

/-- Models `fn from_error_kind(kind, err)` of `error.rs`:
timeout → `Timeout(TimedOutCommand::default())`, not-found →
`DeviceNotFound`, anything else → `Serial(err.into())`. -/
def from_error_kind (kind : IoErrorKind) (err : SerialError) : ConnectionError :=
  match kind with
  | IoErrorKind.TimedOut => ConnectionError.Timeout TimedOutCommand.default
  | IoErrorKind.NotFound => ConnectionError.DeviceNotFound
  | _ => ConnectionError.Serial err

/-- Models `impl From<serial::Error> for ConnectionError`. -/
def ConnectionError.ofSerial (err : SerialError) : ConnectionError :=
  match err.kind with
  | SerialErrorKind.Io kind => from_error_kind kind err
  | SerialErrorKind.NoDevice => ConnectionError.DeviceNotFound
  | _ => ConnectionError.Serial err

/-- Models `impl From<io::Error> for ConnectionError`
(`from_error_kind(err.kind(), err)`). -/
def ConnectionError.ofIo (err : IoError) : ConnectionError :=
  from_error_kind err.kind (serialOfIo err)

/-- Models `impl From<SlipError> for ConnectionError`. -/
def ConnectionError.ofSlip (err : SlipError) : ConnectionError :=
  match err with
  | SlipError.FramingError => ConnectionError.FramingError
  | SlipError.OversizedPacket => ConnectionError.OverSizedPacket
  | SlipError.ReadError io => ConnectionError.ofIo io
  | SlipError.EndOfStream => ConnectionError.FramingError

/-- Models `impl From<binread::Error> for ConnectionError`: only the
`Io` variant is converted; every other variant hits `unreachable!()`,
modelled as `none`. -/
def ConnectionError.ofBinread (err : BinreadError) : Option ConnectionError :=
  match err with
  | BinreadError.Io e => some (ConnectionError.ofIo e)
  | _ => none

/-- Models the `RomError` enum of `error.rs`. -/
inductive RomError where
  | InvalidMessage
  | FailedToAct
  | InvalidCrc
  | FlashWriteError
  | FlashReadError
  | FlashReadLengthError
  | DeflateError
  | Other
  deriving DecidableEq, Repr

/-- Models `impl From<u8> for RomError` (the Device Status Decoder);
the input byte is a `Nat` (callers supply values below 256). -/
def RomError.ofU8 (raw : Nat) : RomError :=
  match raw with
  | 0x05 => RomError.InvalidMessage
  | 0x06 => RomError.FailedToAct
  | 0x07 => RomError.InvalidCrc
  | 0x08 => RomError.FlashWriteError
  | 0x09 => RomError.FlashReadError
  | 0x0a => RomError.FlashReadLengthError
  | 0x0b => RomError.DeflateError
  | _ => RomError.Other

/-- Models `csv::Position` from the csv crate: byte offset, line number
and record index. In the csv crate byte offsets and record indices start
at 0 and line numbers start at 1. -/
structure Position where
  byte : Nat
  line : Nat
  record : Nat
  deriving DecidableEq, Repr

/-- Models `csv::Position::new()` / `Default`: byte 0, line 1
(line numbers are 1-indexed in the csv crate), record 0. -/
def Position.new : Position :=
  { byte := 0, line := 1, record := 0 }

/-- Models the variant shapes of `csv::ErrorKind` that `error.rs`
inspects: `Deserialize { pos, err }` (with `err` rendered to its display
string), `UnequalLengths { pos, expected_len, len }`, and the remaining
kinds (`Io`, `Utf8`, `Seek`, ...) collapsed into representatives that
all hit the code's wildcard arms. -/
inductive CsvErrorKind where
  | Deserialize (pos : Option Position) (errMsg : String)
  | UnequalLengths (pos : Option Position) (expected_len : Nat) (len : Nat)
  | Io (e : IoError)
  | Utf8 (pos : Option Position)
  | Seek
  deriving DecidableEq, Repr

/-- Models `csv::Error` (a boxed `ErrorKind`). -/
structure CsvError where
  kind : CsvErrorKind
  deriving DecidableEq, Repr

/-- Models `miette::SourceSpan`: a byte offset plus a byte length. -/
structure SourceSpan where
  offset : Nat
  length : Nat
  deriving DecidableEq, Repr

/-- Models `fn pos_to_offset(pos: Position) -> SourceOffset`
(`pos.byte() as usize`). -/
def pos_to_offset (pos : Position) : Nat :=
  pos.byte

/-- Splits a character list at every line feed (the pieces do not
contain the line feed); the accumulator holds the current piece
reversed. -/
def splitLinesAux : List Char → List Char → List (List Char)
  | [], acc => [acc.reverse]
  | c :: rest, acc =>
      if c = '\n' then acc.reverse :: splitLinesAux rest []
      else splitLinesAux rest (c :: acc)

/-- Models Rust's `str::lines()`: split on a line feed, treat a carriage
return directly before a line feed as part of the terminator, and the
final line ending is optional (so no trailing empty line is produced). -/
def rustLines (s : String) : List String :=
  let parts := splitLinesAux s.data []
  let parts := if parts.getLast? = some [] then parts.dropLast else parts
  parts.map fun l =>
    String.mk (if l.getLast? = some '\r' then l.dropLast else l)

/-- Models the `PartitionTableError` struct of `error.rs` (the fields
set by its constructor). -/
structure PartitionTableError where
  source : String
  err_span : SourceSpan
  hint : String
  error : CsvError
  deriving DecidableEq, Repr

/-- The position `PartitionTableError::new` extracts from the csv error:
a reported position for `Deserialize` or `UnequalLengths` with
`pos: Some(..)`, and `Position::new()` otherwise. -/
def errPosOf (error : CsvError) : Position :=
  match error.kind with
  | CsvErrorKind.Deserialize (some pos) _ => pos
  | CsvErrorKind.UnequalLengths (some pos) _ _ => pos
  | _ => Position.new

/-- The hint string `PartitionTableError::new` synthesizes: the inner
error's display string for `Deserialize`, the explicit field-count
message for `UnequalLengths`, and the empty string otherwise. -/
def hintOf (error : CsvError) : String :=
  match error.kind with
  | CsvErrorKind.Deserialize _ err => err
  | CsvErrorKind.UnequalLengths _ expected_len len =>
      s!"record has {len} fields, but the previous record has {expected_len} fields"
  | _ => ""

/-- Models `PartitionTableError::new(error, source)`. The Rust code
computes `source.lines().nth(err_pos.line() as usize - 1).unwrap().len()`;
`none` models the panics: the `unwrap()` when the line index is past the
last line of `source`, and the `line() as usize - 1` underflow when the
reported line number is 0 (debug builds panic on the subtraction;
release builds wrap and then panic in the `unwrap()`). The line length
is the line's byte length, as Rust's `str::len` counts bytes. -/
def PartitionTableError.new (error : CsvError) (source : String) :
    Option PartitionTableError :=
  let err_pos := errPosOf error
  let hint := hintOf error
  if err_pos.line = 0 then
    none
  else
    match (rustLines source)[err_pos.line - 1]? with
    | none => none
    | some lineStr =>
        some { source := source,
               err_span := { offset := pos_to_offset err_pos,
                             length := lineStr.utf8ByteSize },
               hint := hint,
               error := error }

/-- Models `ElfError(&'static str)`. -/
structure ElfError where
  msg : String
  deriving DecidableEq, Repr

/-- Models `ChipDetectError(u32)`. -/
structure ChipDetectError where
  val : Nat
  deriving DecidableEq, Repr

/-- Models `impl From<u32> for ChipDetectError` (stores the raw value). -/
def ChipDetectError.ofU32 (err : Nat) : ChipDetectError :=
  { val := err }

/-- Models `FlashDetectError(u8)`. -/
structure FlashDetectError where
  val : Nat
  deriving DecidableEq, Repr

/-- Models `impl From<u8> for FlashDetectError` (stores the raw value). -/
def FlashDetectError.ofU8 (err : Nat) : FlashDetectError :=
  { val := err }

/-- Rust's `{:#x}` formatting of an unsigned integer: `0x` followed by
lowercase hexadecimal digits with no leading zeros (`0x0` for 0). -/
def rustHex (n : Nat) : String :=
  "0x" ++ String.mk (Nat.toDigits 16 n)

/-- Display of `ChipDetectError`
(`#[error("Unrecognized magic value {0:#x}")]`). -/
def ChipDetectError.display (e : ChipDetectError) : String :=
  "Unrecognized magic value " ++ rustHex e.val

/-- Display of `FlashDetectError`
(`#[error("Unrecognized flash id {0:#x}")]`). -/
def FlashDetectError.display (e : FlashDetectError) : String :=
  "Unrecognized flash id " ++ rustHex e.val

/-- Models the top-level `Error` enum of `error.rs`. -/
inductive Error where
  | Connection (err : ConnectionError)
  | Flashing (err : ConnectionError)
  | InvalidElf (err : ElfError)
  | ElfNotRamLoadable
  | Rom (err : RomError)
  | UnrecognizedChip (err : ChipDetectError)
  | UnsupportedFlash (err : FlashDetectError)
  | FlashConnect
  | MalformedPartitionTable (err : PartitionTableError)
  | UnsupportedDirectBoot
  deriving DecidableEq, Repr

/-- Models `ResultExt::flashing` for `Result<T, Error>`:
`Err(Error::Connection(err))` becomes `Err(Error::Flashing(err))`,
everything else passes through. -/
def flashing {α : Type} (r : Except Error α) : Except Error α :=
  match r with
  | Except.error (Error.Connection err) => Except.error (Error.Flashing err)
  | res => res

/-- Models `ResultExt::for_command` for `Result<T, Error>`: a timeout
under either phase tag gets the command attached; everything else passes
through. -/
def for_command {α : Type} (r : Except Error α) (command : Command) :
    Except Error α :=
  match r with
  | Except.error (Error.Connection (ConnectionError.Timeout _)) =>
      Except.error (Error.Connection
        (ConnectionError.Timeout (TimedOutCommand.ofCommand command)))
  | Except.error (Error.Flashing (ConnectionError.Timeout _)) =>
      Except.error (Error.Flashing
        (ConnectionError.Timeout (TimedOutCommand.ofCommand command)))
  | res => res

/-- `true` exactly on the values `for_command` rewrites: an error that
is a timeout under the `Connection` or `Flashing` phase tag. -/
def isTaggedTimeout {α : Type} (r : Except Error α) : Bool :=
  match r with
  | Except.error (Error.Connection (ConnectionError.Timeout _)) => true
  | Except.error (Error.Flashing (ConnectionError.Timeout _)) => true
  | _ => false

/-- `true` exactly on the values `flashing` rewrites: an error under the
`Connection` phase tag. -/
def isConnectionTagged {α : Type} (r : Except Error α) : Bool :=
  match r with
  | Except.error (Error.Connection _) => true
  | _ => false

/-! ## Theorems -/

set_option maxRecDepth 4000 in
/-- Claim C1: the Device Status Decoder (`From<u8> for RomError`) maps
each status code in `0x05..0x0b` to exactly the corresponding named
reason, and every other nonzero byte value to the catch-all `Other`
variant; it is total over all byte inputs (it is a total Lean function
on the byte range, so it never panics). -/
theorem romError_ofU8_spec (b : Nat) (hb : b < 256) :
    (RomError.ofU8 0x05 = RomError.InvalidMessage ∧
     RomError.ofU8 0x06 = RomError.FailedToAct ∧
     RomError.ofU8 0x07 = RomError.InvalidCrc ∧
     RomError.ofU8 0x08 = RomError.FlashWriteError ∧
     RomError.ofU8 0x09 = RomError.FlashReadError ∧
     RomError.ofU8 0x0a = RomError.FlashReadLengthError ∧
     RomError.ofU8 0x0b = RomError.DeflateError) ∧
    (b ≠ 0 → b < 0x05 ∨ 0x0b < b → RomError.ofU8 b = RomError.Other) := by
  refine ⟨⟨rfl, rfl, rfl, rfl, rfl, rfl, rfl⟩, ?_⟩
  intro h0 hout
  have hall : ∀ n : Nat, n < 256 → n ≠ 0 → n < 0x05 ∨ 0x0b < n →
      RomError.ofU8 n = RomError.Other := by decide
  exact hall b hb h0 hout

/-- Witness for C1: the decoder maps the reserved byte `0xff` to the
catch-all variant. -/
theorem romError_ofU8_spec_witness :
    RomError.ofU8 0xff = RomError.Other :=
  (romError_ofU8_spec 0xff (by decide)).2 (by decide) (by decide)

/-- Claim C10: the Device Status Decoder does not treat the success
code specially: input `0x00` maps to the catch-all `Other` variant,
exactly like any other unlisted code (compare `RomError.ofU8 0x01`). -/
theorem romError_ofU8_zero :
    RomError.ofU8 0x00 = RomError.Other ∧ RomError.ofU8 0x00 = RomError.ofU8 0x01 :=
  ⟨rfl, rfl⟩

/-- Claim C3: `for_command` replaces the (possibly absent) command
annotation of a timeout under either phase tag with the given command,
and leaves every other value — `Ok` values and all non-timeout
errors — unchanged. -/
theorem for_command_spec {α : Type} (c : Command) (t : TimedOutCommand)
    (r : Except Error α) :
    for_command (α := α)
        (Except.error (Error.Connection (ConnectionError.Timeout t))) c
      = Except.error (Error.Connection (ConnectionError.Timeout ⟨some c⟩)) ∧
    for_command (α := α)
        (Except.error (Error.Flashing (ConnectionError.Timeout t))) c
      = Except.error (Error.Flashing (ConnectionError.Timeout ⟨some c⟩)) ∧
    (isTaggedTimeout r = false → for_command r c = r) := by
  refine ⟨rfl, rfl, ?_⟩
  intro h
  cases r with
  | ok v => rfl
  | error e =>
    cases e with
    | Connection ce =>
      cases ce with
      | Serial err => rfl
      | ConnectionFailed => rfl
      | DeviceNotFound => rfl
      | Timeout t2 => simp [isTaggedTimeout] at h
      | FramingError => rfl
      | OverSizedPacket => rfl
    | Flashing ce =>
      cases ce with
      | Serial err => rfl
      | ConnectionFailed => rfl
      | DeviceNotFound => rfl
      | Timeout t2 => simp [isTaggedTimeout] at h
      | FramingError => rfl
      | OverSizedPacket => rfl
    | InvalidElf e => rfl
    | ElfNotRamLoadable => rfl
    | Rom e => rfl
    | UnrecognizedChip e => rfl
    | UnsupportedFlash e => rfl
    | FlashConnect => rfl
    | MalformedPartitionTable e => rfl
    | UnsupportedDirectBoot => rfl

/-- Witness for C3: `for_command` leaves an `Ok` value unchanged. -/
theorem for_command_spec_witness :
    for_command (Except.ok (0 : Nat)) ⟨"SYNC"⟩ = Except.ok 0 :=
  (for_command_spec ⟨"SYNC"⟩ ⟨none⟩ (Except.ok (0 : Nat))).2.2 rfl

/-- Claim C4: the stage tagger `flashing` is idempotent: applying it
twice yields the same value as applying it once; a `Connection` error
is rewrapped as `Flashing` exactly once, and every other value passes
through unchanged. -/
theorem flashing_idempotent {α : Type} (r : Except Error α) :
    flashing (flashing r) = flashing r ∧
    (∀ e, flashing (α := α) (Except.error (Error.Connection e)) =
      Except.error (Error.Flashing e)) ∧
    (isConnectionTagged r = false → flashing r = r) := by
  refine ⟨?_, fun e => rfl, ?_⟩
  · cases r with
    | ok v => rfl
    | error e =>
      cases e with
      | Connection ce => rfl
      | Flashing ce => rfl
      | InvalidElf e => rfl
      | ElfNotRamLoadable => rfl
      | Rom e => rfl
      | UnrecognizedChip e => rfl
      | UnsupportedFlash e => rfl
      | FlashConnect => rfl
      | MalformedPartitionTable e => rfl
      | UnsupportedDirectBoot => rfl
  · intro h
    cases r with
    | ok v => rfl
    | error e =>
      cases e with
      | Connection ce => simp [isConnectionTagged] at h
      | Flashing ce => rfl
      | InvalidElf e => rfl
      | ElfNotRamLoadable => rfl
      | Rom e => rfl
      | UnrecognizedChip e => rfl
      | UnsupportedFlash e => rfl
      | FlashConnect => rfl
      | MalformedPartitionTable e => rfl
      | UnsupportedDirectBoot => rfl

/-- Witness for C4: an already `Flashing`-tagged timeout passes through
`flashing` unchanged (no double wrap). -/
theorem flashing_idempotent_witness :
    flashing (α := Nat)
        (Except.error (Error.Flashing (ConnectionError.Timeout ⟨none⟩)))
      = Except.error (Error.Flashing (ConnectionError.Timeout ⟨none⟩)) :=
  (flashing_idempotent
    (Except.error (Error.Flashing (ConnectionError.Timeout ⟨none⟩)))).2.2 rfl

/-- Claim C5: the transport classifier (`from_error_kind`, and
`From<serial::Error> for ConnectionError`) is total (both are total Lean
functions over their closed input types) and yields exactly the expected
variant: an I/O timeout kind yields `Timeout` with the command
annotation unset, a not-found / no-device kind yields `DeviceNotFound`,
and every other kind yields `Serial` preserving the underlying error. -/
theorem transport_classifier_spec (e : SerialError) (m : String)
    (k : IoErrorKind) :
    from_error_kind IoErrorKind.TimedOut e = ConnectionError.Timeout ⟨none⟩ ∧
    from_error_kind IoErrorKind.NotFound e = ConnectionError.DeviceNotFound ∧
    (k ≠ IoErrorKind.TimedOut → k ≠ IoErrorKind.NotFound →
      from_error_kind k e = ConnectionError.Serial e) ∧
    ConnectionError.ofSerial ⟨SerialErrorKind.Io k, m⟩
      = from_error_kind k ⟨SerialErrorKind.Io k, m⟩ ∧
    ConnectionError.ofSerial ⟨SerialErrorKind.NoDevice, m⟩
      = ConnectionError.DeviceNotFound ∧
    ConnectionError.ofSerial ⟨SerialErrorKind.InvalidInput, m⟩
      = ConnectionError.Serial ⟨SerialErrorKind.InvalidInput, m⟩ ∧
    ConnectionError.ofSerial ⟨SerialErrorKind.Unknown, m⟩
      = ConnectionError.Serial ⟨SerialErrorKind.Unknown, m⟩ := by
  refine ⟨rfl, rfl, ?_, rfl, rfl, rfl, rfl⟩
  intro h1 h2
  cases k with
  | NotFound => exact absurd rfl h2
  | TimedOut => exact absurd rfl h1
  | PermissionDenied => rfl
  | ConnectionRefused => rfl
  | ConnectionReset => rfl
  | BrokenPipe => rfl
  | WouldBlock => rfl
  | InvalidInput => rfl
  | InvalidData => rfl
  | WriteZero => rfl
  | Interrupted => rfl
  | UnexpectedEof => rfl
  | OtherKind => rfl

/-- Witness for C5: a broken-pipe I/O kind — neither timeout nor
not-found — is classified as a `Serial` error preserving the cause. -/
theorem transport_classifier_spec_witness :
    from_error_kind IoErrorKind.BrokenPipe ⟨SerialErrorKind.Unknown, "pipe"⟩
      = ConnectionError.Serial ⟨SerialErrorKind.Unknown, "pipe"⟩ :=
  (transport_classifier_spec ⟨SerialErrorKind.Unknown, "pipe"⟩ "pipe"
    IoErrorKind.BrokenPipe).2.2.1 (by decide) (by decide)

/-- Claim C6: the codec-level classifier (`From<SlipError> for
ConnectionError`) maps a malformed frame to `FramingError`, an
oversized frame to `OverSizedPacket`, a codec read error through the
I/O mapping, and an end-of-stream to `FramingError`; these four
equations cover every `SlipError` shape, so the mapping is total and
lands in the closed `ConnectionError` set. -/
theorem slip_classifier_spec (io : IoError) :
    ConnectionError.ofSlip SlipError.FramingError
      = ConnectionError.FramingError ∧
    ConnectionError.ofSlip SlipError.OversizedPacket
      = ConnectionError.OverSizedPacket ∧
    ConnectionError.ofSlip (SlipError.ReadError io)
      = ConnectionError.ofIo io ∧
    ConnectionError.ofSlip SlipError.EndOfStream
      = ConnectionError.FramingError :=
  ⟨rfl, rfl, rfl, rfl⟩

/-- Claim C7: `From<u32> for ChipDetectError` stores the raw magic
value unmodified and its display renders that same value (in
particular for `0xDEADBEEF`); `From<u8> for FlashDetectError` likewise
preserves the raw flash id. -/
theorem detect_errors_preserve_raw (v b : Nat)
    (_hv : v < 2 ^ 32) (_hb : b < 2 ^ 8) :
    (ChipDetectError.ofU32 v).val = v ∧
    (ChipDetectError.ofU32 v).display
      = "Unrecognized magic value " ++ rustHex v ∧
    (FlashDetectError.ofU8 b).val = b ∧
    (FlashDetectError.ofU8 b).display
      = "Unrecognized flash id " ++ rustHex b ∧
    (ChipDetectError.ofU32 0xDEADBEEF).display
      = "Unrecognized magic value 0xdeadbeef" :=
  ⟨rfl, rfl, rfl, rfl, rfl⟩

/-- Witness for C7: the unrecognized magic value `0xDEADBEEF` is
carried unmodified in the chip-detection failure. -/
theorem detect_errors_preserve_raw_witness :
    (ChipDetectError.ofU32 0xDEADBEEF).val = 0xDEADBEEF :=
  (detect_errors_preserve_raw 0xDEADBEEF 0xC8 (by decide) (by decide)).1

/-- Claim C9: `From<binread::Error> for ConnectionError` converts only
the `Io`-carrying variant; every other `binread::Error` variant hits
the explicit `unreachable!()` branch (modelled as `none`) instead of
falling through to a generic serial-layer error. -/
theorem binread_conversion_spec (e : IoError) (pos : Nat) (msg : String) :
    ConnectionError.ofBinread (BinreadError.Io e)
      = some (ConnectionError.ofIo e) ∧
    ConnectionError.ofBinread (BinreadError.BadMagic pos) = none ∧
    ConnectionError.ofBinread (BinreadError.AssertFail pos msg) = none ∧
    ConnectionError.ofBinread (BinreadError.Custom pos) = none ∧
    ConnectionError.ofBinread (BinreadError.NoVariantMatch pos) = none ∧
    ConnectionError.ofBinread (BinreadError.EnumErrors pos) = none :=
  ⟨rfl, rfl, rfl, rfl, rfl, rfl⟩

/-- Claim C2: for a field-count mismatch (csv `UnequalLengths` with a
reported position) whose reported line lies within the source,
`PartitionTableError::new` produces a diagnostic whose hint is exactly
the field-count message, whose span starts at the reported row's byte
offset, and whose span length is the byte length of that row's entire
source line. -/
theorem partition_table_unequal_lengths_diagnostic
    (p : Position) (expected_len len : Nat) (source lineStr : String)
    (h0 : p.line ≠ 0)
    (hl : (rustLines source)[p.line - 1]? = some lineStr) :
    PartitionTableError.new
        ⟨CsvErrorKind.UnequalLengths (some p) expected_len len⟩ source
      = some { source := source,
               err_span := { offset := p.byte,
                             length := lineStr.utf8ByteSize },
               hint := s!"record has {len} fields, but the previous record has {expected_len} fields",
               error := ⟨CsvErrorKind.UnequalLengths (some p)
                           expected_len len⟩ } := by
  simp only [PartitionTableError.new, errPosOf, hintOf, pos_to_offset]
  rw [if_neg h0, hl]

/-- Witness for C2: a 5-field header row followed by a 4-field second
row yields the hint "record has 4 fields, but the previous record has 5
fields" and a span covering the second row's full line (offset 30,
length 19). -/
theorem partition_table_unequal_lengths_diagnostic_witness :
    PartitionTableError.new
        ⟨CsvErrorKind.UnequalLengths (some ⟨30, 2, 1⟩) 5 4⟩
        "name,type,subtype,offset,size\nnvs,data,nvs,0x9000\n"
      = some { source := "name,type,subtype,offset,size\nnvs,data,nvs,0x9000\n",
               err_span := { offset := 30, length := 19 },
               hint := "record has 4 fields, but the previous record has 5 fields",
               error := ⟨CsvErrorKind.UnequalLengths (some ⟨30, 2, 1⟩) 5 4⟩ } :=
  partition_table_unequal_lengths_diagnostic ⟨30, 2, 1⟩ 5 4
    "name,type,subtype,offset,size\nnvs,data,nvs,0x9000\n"
    "nvs,data,nvs,0x9000" (by decide) (by decide)

/-- Counterexample to claim C8 as stated: a csv error kind carrying no
reported position (here the `Seek` kind) does not make
`PartitionTableError::new` panic on a nonempty source: the default
`csv::Position` has line number 1 (csv line numbers are 1-indexed), not
0, so `line() as usize - 1` does not underflow and the constructor
returns a diagnostic spanning line 1. -/
theorem partition_table_new_default_position_no_panic :
    PartitionTableError.new ⟨CsvErrorKind.Seek⟩ "abc"
      = some { source := "abc",
               err_span := { offset := 0, length := 3 },
               hint := "",
               error := ⟨CsvErrorKind.Seek⟩ } := rfl

/-- Claim C8 (amended): `PartitionTableError::new` is indeed not total
over its inputs, but not for the stated reason: the default position
has line 1, and the constructor panics (modelled as `none`) exactly
when the reported line number is 0 or exceeds the number of lines of
the source text — in particular a kind with no reported position panics
only when the source has no first line, e.g. the empty string. -/
theorem partition_table_new_panic_iff (error : CsvError) (source : String) :
    Position.new.line = 1 ∧
    PartitionTableError.new ⟨CsvErrorKind.Seek⟩ "" = none ∧
    ((PartitionTableError.new error source).isNone ↔
      (errPosOf error).line = 0 ∨
        (rustLines source).length ≤ (errPosOf error).line - 1) := by
  refine ⟨rfl, rfl, ?_⟩
  by_cases h0 : (errPosOf error).line = 0
  · simp [PartitionTableError.new, h0]
  · cases hget : (rustLines source)[(errPosOf error).line - 1]? with
    | none =>
      have hlen := List.getElem?_eq_none_iff.mp hget
      simp [PartitionTableError.new, h0, hget, hlen]
    | some l =>
      obtain ⟨hlt, -⟩ := List.getElem?_eq_some_iff.mp hget
      simp [PartitionTableError.new, h0, hget, Nat.not_le.mpr hlt]

end Espflash
